import Mathlib

/-!
Verification of the job-control shell (src/shell.c, src/unnamed/part_000,
src/unnamed/part_001) against its natural-language specification.

The data model and operations below are a shallow embedding of the C source:
the job table is a `List Job` (njobmax = list length, slot 0 = FG, slots ≥ 1 = BG),
kernel interactions (open, fork, chdir, waitpid, the reaper activity during
`sigsuspend`) are oracles supplied as parameters, and assertion failures
(`assert(3)` aborts the whole process) are modelled as `Except.error ()`.
-/

namespace Shell

/-- Lifecycle state of a process or a job (part_000, `proc_t.state` / `job_t.state`).
The numeric constants live in the project header `shell.h`, which is not part of
the provided sources; the zero value (the one a `calloc`/`memset`-cleared slot
carries) is `FINISHED`, consistent with the source treating freed slots as
skippable in `resumejob`'s default-selection scan. -/
inductive PState
  | RUNNING
  | STOPPED
  | FINISHED
deriving DecidableEq, Repr

/-- Embedding of `proc_t` (part_000:3-7). -/
structure Proc where
  pid : Int
  state : PState
  exitcode : Int
deriving DecidableEq, Repr

/-- Embedding of `job_t` (part_000:9-15). `nproc` is `proc.length`;
`command = none` is the `NULL` char pointer. -/
structure Job where
  pgid : Int
  proc : List Proc
  state : PState
  command : Option String
deriving DecidableEq, Repr

/-- A `memset`-zeroed / `calloc`-fresh slot: `pgid = 0`, no processes, no command
text, and the zero state value (see `PState`). -/
def zeroJob : Job :=
  { pgid := 0, proc := [], state := PState.FINISHED, command := none }

/-- Placeholder used for the (unreachable in well-formed states) read of
`proc[nproc-1]` on an empty process array. -/
def procNull : Proc := { pid := 0, state := PState.FINISHED, exitcode := -1 }

/-- Signals named by the source. -/
inductive Sig
  | SIGTSTP
  | SIGTTIN
  | SIGTTOU
  | SIGCONT
  | SIGTERM
  | SIGCHLD
  | SIGINT
deriving DecidableEq, Repr

/-- Embedding of `exitcode` (part_000:79-81): a pipeline's exit code is read from
its last process record, `job->proc[job->nproc - 1].exitcode`. -/
def exitcode (job : Job) : Int :=
  (job.proc.getD (job.proc.length - 1) procNull).exitcode

/-- Embedding of the scan loop of `allocjob` (part_000:85-87): first background
slot (index ≥ 1) whose `pgid` is 0. -/
def allocjobGo (tbl : List Job) (j : Nat) : Nat :=
  if j < tbl.length then
    if (tbl.getD j zeroJob).pgid = 0 then j else allocjobGo tbl (j + 1)
  else j
termination_by tbl.length - j

/-- Embedding of `allocjob` (part_000:83-92): find an empty background slot or,
failing that, grow the table by one (`realloc`) and return the fresh index. -/
def allocjob (tbl : List Job) : Nat := allocjobGo tbl 1

/-- Write slot `j`, growing the table by one when `j` is the just-allocated
fresh index (`jobs = realloc(jobs, ...); njobmax++`). -/
def growSet (tbl : List Job) (j : Nat) (job : Job) : List Job :=
  if j < tbl.length then tbl.set j job else tbl ++ [job]

/-- Embedding of `addjob` (part_000:100-110): foreground jobs take slot 0,
background jobs take `allocjob`'s slot; the slot is initialised to a RUNNING
job with no processes and no command text. Returns the slot index and the
updated table. -/
def addjob (pgid : Int) (bg : Bool) (tbl : List Job) : Nat × List Job :=
  let j := if bg then allocjob tbl else 0
  (j, growSet tbl j { pgid := pgid, proc := [], state := PState.RUNNING, command := none })

/-- Embedding of `deljob` (part_000:112-120): frees the process array and
command text and zeroes `pgid`/`proc`/`nproc`/`command` — but does NOT touch
`state` (the function asserts `state == FINISHED` on entry; theorems carry that
assertion as a hypothesis). -/
def deljob (job : Job) : Job :=
  { pgid := 0, proc := [], state := job.state, command := none }

/-- Embedding of `movejob` (part_000:122-126): `memcpy` the record from `src`
into `dst` and `memset` `src` to zero. The source asserts `jobs[dst].pgid == 0`;
callers model that assert explicitly. -/
def movejob (tbl : List Job) (src dst : Nat) : List Job :=
  (tbl.set dst (tbl.getD src zeroJob)).set src zeroJob

/-- Embedding of `mkcommand` (part_000:128-136): append `argv` joined by spaces
to the job's command text, with a pipe separator between stages. (`argv` is
nonempty at every call site.) -/
def mkcommand (cmd : Option String) (argv : List String) : Option String :=
  some ((match cmd with
         | some c => c ++ " | "
         | none => "") ++ String.intercalate " " argv)

/-- Embedding of `addproc` (part_000:138-149): append a RUNNING process record
with exit code −1 to slot `j` and extend the command text. -/
def addproc (j : Nat) (pid : Int) (argv : List String) (tbl : List Job) : List Job :=
  let job := tbl.getD j zeroJob
  tbl.set j { job with
              proc := job.proc ++ [{ pid := pid, state := PState.RUNNING, exitcode := -1 }],
              command := mkcommand job.command argv }

/-! ## The SIGCHLD reaper (part_000:21-76) -/

/-- Result of the non-blocking `waitpid(pid, &status, WNOHANG|WUNTRACED|WCONTINUED)`
call for one pid, as classified by the handler: `noChg` covers `wait_res ≤ 0`
(and any status matching none of the `WIF*` tests); `exited`/`signaled` carry
the `WEXITSTATUS(status)` value the handler records. -/
inductive WaitRes
  | noChg
  | exited (st : Int)
  | signaled (st : Int)
  | continued
  | stopped
deriving DecidableEq, Repr

/-- Per-process body of the handler's inner loop (part_000:41-56): already
FINISHED processes are skipped by the caller; otherwise the wait result updates
state and exit code. -/
def updateProc (w : Int → WaitRes) (p : Proc) : Proc :=
  match w p.pid with
  | WaitRes.exited st => { p with state := PState.FINISHED, exitcode := st }
  | WaitRes.signaled st => { p with state := PState.FINISHED, exitcode := st }
  | WaitRes.continued => { p with state := PState.RUNNING }
  | WaitRes.stopped => { p with state := PState.STOPPED }
  | WaitRes.noChg => p

/-- The handler's inner loop over one job's processes (part_000:35-63):
returns the updated process list together with the `has_running` and
`has_stopped` flags accumulated in the same pass (a FINISHED record is skipped
with `continue` and contributes to neither flag). -/
def reapProcs (w : Int → WaitRes) : List Proc → List Proc × Bool × Bool
  | [] => ([], false, false)
  | p :: ps =>
    let hd : Proc × Bool × Bool :=
      if p.state = PState.FINISHED then (p, false, false)
      else
        let q := updateProc w p
        (q, q.state == PState.RUNNING, q.state == PState.STOPPED)
    let rest := reapProcs w ps
    (hd.1 :: rest.1, hd.2.1 || rest.2.1, hd.2.2 || rest.2.2)

/-- The handler's per-job body (part_000:26-72): empty slots (`pgid == 0`) are
skipped; otherwise the processes are reaped and the aggregate state recomputed
from the flags. -/
def sigchldJob (w : Int → WaitRes) (job : Job) : Job :=
  if job.pgid = 0 then job
  else
    let r := reapProcs w job.proc
    { job with
      proc := r.1,
      state := if r.2.1 then PState.RUNNING
               else if r.2.2 then PState.STOPPED
               else PState.FINISHED }

/-- Embedding of `sigchld_handler` (part_000:21-76): one invocation visits every
slot. The `waitpid` oracle `w` gives each pid's pending state change. -/
def sigchld_handler (w : Int → WaitRes) (tbl : List Job) : List Job :=
  tbl.map (sigchldJob w)

/-- Modelled from the spec: the aggregate-state derivation rule of §3 invariant 3
("if any process is RUNNING the job is RUNNING; else if any is STOPPED the job
is STOPPED; else all are FINISHED and the job is FINISHED"). Used as the
reference point the handler's recomputation is compared against. -/
def deriveSpec (procs : List Proc) : PState :=
  if procs.any (fun p => p.state == PState.RUNNING) then PState.RUNNING
  else if procs.any (fun p => p.state == PState.STOPPED) then PState.STOPPED
  else PState.FINISHED

/-! ## The foreground monitor (part_000:247-273) -/

/-- Embedding of `monitorjob`'s wait loop, at the iteration where it exits:
the source repeatedly `Sigsuspend`s and re-reads `jobs[FG].state`; on STOPPED it
allocates a background slot with `addjob(0, BG)` and moves the foreground job
there; on FINISHED it reads the last process's exit code and breaks — with NO
`deljob` call, so the foreground slot keeps its `pgid` and records. The
argument is the job table as the reaper has evolved it by the exiting
iteration. The RUNNING case never exits the loop in the source; it is given the
placeholder value `(-1, tbl)` here and no theorem relies on it. The terminal
`Tcsetpgrp` hand-over/reclaim and the entry assert `fg_job->pgid != 0` are not
modelled. -/
def monitorjob (tbl : List Job) : Int × List Job :=
  let fg := tbl.getD 0 zeroJob
  match fg.state with
  | PState.STOPPED =>
    let r := addjob 0 true tbl
    (-1, movejob r.2 0 r.1)
  | PState.FINISHED => (exitcode fg, tbl)
  | PState.RUNNING => (-1, tbl)

/-! ## watchjobs (part_000:214-243) -/

/-- Report filter: `none` stands for the `ALL` constant, `some s` for a specific
state constant. -/
def watchjobsAt (which : Option PState) (j : Nat) (job : Job) : List String × Job :=
  if job.pgid = 0 then ([], job)
  else if which = none ∨ which = some job.state then
    match job.state with
    | PState.FINISHED =>
      (["[" ++ toString j ++ "] exited, status=" ++ toString (exitcode job) ++
        " (" ++ job.command.getD "" ++ ")\n"], deljob job)
    | PState.STOPPED =>
      (["[" ++ toString j ++ "] stopped (" ++ job.command.getD "" ++ ")\n"], job)
    | PState.RUNNING =>
      (["[" ++ toString j ++ "] running (" ++ job.command.getD "" ++ ")\n"], job)
  else ([], job)

/-- The `watchjobs` loop body over background slots starting at index `k`. -/
def watchjobsGo (which : Option PState) (k : Nat) : List Job → List String × List Job
  | [] => ([], [])
  | job :: rest =>
    let hd := watchjobsAt which k job
    let tl := watchjobsGo which (k + 1) rest
    (hd.1 ++ tl.1, hd.2 :: tl.2)

/-- Embedding of `watchjobs` (part_000:214-243): iterate over background slots
(the loop starts at `BG` = 1, so the foreground slot is never reported), print
one line per matching occupied slot, and `deljob` each FINISHED slot after
reporting it. Returns the printed lines and the table afterwards. -/
def watchjobs (which : Option PState) (tbl : List Job) : List String × List Job :=
  match tbl with
  | [] => ([], [])
  | fg :: rest =>
    let r := watchjobsGo which 1 rest
    (r.1, fg :: r.2)

/-! ## Tokens and the redirection resolver (shell.c:18-61) -/

/-- The lexer's token vocabulary: literal strings (`argv` words) and the typed
separators. `token_t` is `char*` in C with the separators encoded as special
pointer constants; the bare `NULL` written by `do_redir` coincides with the
`T_NULL` constant, so both are `tNull` here. -/
inductive Token
  | str (s : String)
  | tInput
  | tOutput
  | tPipe
  | tBgjob
  | tNull
deriving DecidableEq, Repr

/-- The `string_p` test on the token that follows a redirection operator. -/
def headIsString : List Token → Bool
  | Token.str _ :: _ => true
  | _ => false

/-- Direction of a redirection: `T_INPUT` opens read-only, `T_OUTPUT` opens
write-only/create with mode 0644. -/
inductive RMode
  | rIn
  | rOut
deriving DecidableEq, Repr

/-- The scan loop of `do_redir` (shell.c:22-57), recast over the token suffix
still to be scanned (the in-place compaction shifts the unscanned tokens down
by two after each consumed redirection, so the loop is exactly this recursion;
the dead `T_NULL` padding the source leaves at the end of the array is
dropped). `openF` is the `open(2)` oracle, returning the descriptor or −1 on
failure — the source never checks it. A previously opened descriptor for the
same direction is closed before being overwritten. The `assert(i+1 != ntokens
&& string_p(token[i+1]))` on a redirection operator not followed by a literal
string is `Except.error ()`: an `assert(3)` failure aborting the whole shell
process. -/
def do_redirGo (openF : RMode → String → Int) :
    List Token → Int → Int → Except Unit (List Token × Int × Int)
  | [], inp, out => Except.ok ([], inp, out)
  | t :: rest, inp, out =>
    match t with
    | Token.tNull => Except.ok ([], inp, out)
    | Token.tInput =>
      match rest with
      | Token.str f :: rest2 => do_redirGo openF rest2 (openF RMode.rIn f) out
      | _ => Except.error ()
    | Token.tOutput =>
      match rest with
      | Token.str f :: rest2 => do_redirGo openF rest2 inp (openF RMode.rOut f)
      | _ => Except.error ()
    | t => Except.map (fun r => (t :: r.1, r.2.1, r.2.2)) (do_redirGo openF rest inp out)

/-- Embedding of `do_redir` (shell.c:18-61): both descriptors start at −1
("inherit the parent's"); returns the compacted token vector, the new token
count `n`, and the two descriptors. -/
def do_redir (openF : RMode → String → Int) (tokens : List Token) :
    Except Unit (List Token × Nat × Int × Int) :=
  Except.map (fun r => (r.1, r.1.length, r.2.1, r.2.2)) (do_redirGo openF tokens (-1) (-1))

/-! ## atoi -/

/-- Digit-accumulation loop of C `atoi`. -/
def atoiLoop : List Char → Int → Int
  | [], acc => acc
  | c :: cs, acc =>
    if c.isDigit then atoiLoop cs (acc * 10 + ((c.toNat : Int) - 48)) else acc

/-- C `atoi`: skip leading whitespace, optional sign, then leading digits
(0 when there are none; overflow is undefined in C and not modelled). -/
def atoi (s : String) : Int :=
  let cs := s.data.dropWhile (fun c =>
    c == ' ' || c == '\t' || c == '\n' || c == '\x0b' || c == '\x0c' || c == '\r')
  match cs with
  | '-' :: rest => -(atoiLoop rest 0)
  | '+' :: rest => atoiLoop rest 0
  | _ => atoiLoop cs 0

/-! ## Kernel and environment oracles -/

/-- External nondeterminism consumed by one command evaluation: `open(2)` and
`chdir(2)` results, `$HOME`, the `strerror(errno)` text at an error report,
the pid `fork` hands the parent, and `wake`, the job table as the SIGCHLD
reaper has evolved it by the time a `Sigsuspend` wait in `monitorjob` exits. -/
structure Oracles where
  openF : RMode → String → Int
  chdirF : Option String → Int
  homeF : Option String
  strerrF : String
  forkF : Int
  wake : List Job → List Job

/-- Combined outcome of one built-in execution: the C return value, the lines
printed with `msg`, the signals sent with `Kill` (target, signal), and the job
table afterwards. -/
structure Eff where
  ret : Int
  msgs : List String
  sigs : List (Int × Sig)
  tbl : List Job
deriving DecidableEq, Repr

/-! ## resumejob / killjob (part_000:175-211) -/

/-- The default-selection scan of `resumejob` (part_000:177-178):
`for (j = njobmax - 1; j > 0 && jobs[j].state == FINISHED; j--)`. -/
def defaultSelectGo (tbl : List Job) : Nat → Nat
  | 0 => 0
  | j + 1 =>
    if (tbl.getD (j + 1) zeroJob).state = PState.FINISHED then defaultSelectGo tbl j
    else j + 1

/-- Default selection starts from the highest slot index. -/
def defaultSelect (tbl : List Job) : Nat := defaultSelectGo tbl (tbl.length - 1)

/-- The slot `resumejob` will act on: a negative argument triggers the
default-selection scan. -/
def resumeTarget (tbl : List Job) (j : Int) : Int :=
  if j < 0 then ((defaultSelect tbl : Nat) : Int) else j

/-- The rejection test of `resumejob` (part_000:181):
`j >= njobmax || jobs[j].state == FINISHED` means "job not found". -/
def resumejobFound (tbl : List Job) (j : Int) : Bool :=
  let jn := resumeTarget tbl j
  if jn ≥ (tbl.length : Int) ∨ (tbl.getD jn.toNat zeroJob).state = PState.FINISHED then false
  else true

/-- Embedding of `resumejob` (part_000:175-194). On success it sends `SIGCONT`
to the process group; with `bg = false` it then moves the job into the
foreground slot — `movejob`'s `assert(jobs[FG].pgid == 0)` is `Except.error ()`
(a whole-process abort) — and runs the foreground monitor, whose return value
the source discards. Returns (found, signals sent, table afterwards). -/
def resumejob (orc : Oracles) (j : Int) (bg : Bool) (tbl : List Job) :
    Except Unit (Bool × List (Int × Sig) × List Job) :=
  let jn := resumeTarget tbl j
  if jn ≥ (tbl.length : Int) ∨ (tbl.getD jn.toNat zeroJob).state = PState.FINISHED then
    Except.ok (false, [], tbl)
  else
    let job := tbl.getD jn.toNat zeroJob
    if bg then Except.ok (true, [(-job.pgid, Sig.SIGCONT)], tbl)
    else if (tbl.getD 0 zeroJob).pgid ≠ 0 then Except.error ()
    else
      let tbl1 := movejob tbl jn.toNat 0
      Except.ok (true, [(-job.pgid, Sig.SIGCONT)], (monitorjob (orc.wake tbl1)).2)

/-- Embedding of `killjob` (part_000:197-211): out-of-range or FINISHED slots
and slots with `pgid == 0` are rejected; otherwise `SIGTERM` goes to the
process group. (A negative index would be undefined behaviour in the C array
read; `Int.toNat` clamps it, and no theorem uses a negative index.) -/
def killjob (j : Int) (tbl : List Job) : Bool × List (Int × Sig) :=
  if j ≥ (tbl.length : Int) ∨ (tbl.getD j.toNat zeroJob).state = PState.FINISHED then (false, [])
  else
    let job := tbl.getD j.toNat zeroJob
    if job.pgid = 0 then (false, [])
    else (true, [(-job.pgid, Sig.SIGTERM)])

/-! ## The built-ins (part_001) -/

/-- Embedding of `do_chdir` (part_001:19-29): `cd` with no argument targets
`$HOME`; a failing `chdir` prints `cd: strerror: path` and returns 1. -/
def do_chdir (orc : Oracles) (argv : List String) (tbl : List Job) : Eff :=
  let path := argv.head? <|> orc.homeF
  if orc.chdirF path < 0 then
    { ret := 1, msgs := ["cd: " ++ orc.strerrF ++ ": " ++ path.getD "(null)" ++ "\n"],
      sigs := [], tbl := tbl }
  else { ret := 0, msgs := [], sigs := [], tbl := tbl }

/-- Embedding of `do_jobs` (part_001:34-37): `watchjobs(ALL)` and return 0. -/
def do_jobs (_argv : List String) (tbl : List Job) : Eff :=
  let r := watchjobs none tbl
  { ret := 0, msgs := r.1, sigs := [], tbl := r.2 }

/-- Embedding of `do_fg` (part_001:44-53): the argument (or −1) is resolved by
`resumejob(j, FG, mask)`; on failure `fg: job not found: %s` is printed — and
the function returns 0 on BOTH paths (part_001:52). A missing argument printed
through `%s` renders as glibc's "(null)". -/
def do_fg (orc : Oracles) (argv : List String) (tbl : List Job) : Except Unit Eff :=
  let j : Int := match argv.head? with
                 | some a => atoi a
                 | none => -1
  Except.map (fun r =>
    { ret := 0,
      msgs := if r.1 then []
              else ["fg: job not found: " ++ argv.head?.getD "(null)" ++ "\n"],
      sigs := r.2.1, tbl := r.2.2 })
    (resumejob orc j false tbl)

/-- Embedding of `do_bg` (part_001:60-69): like `do_fg` with `BG`; also returns
0 on both paths. -/
def do_bg (orc : Oracles) (argv : List String) (tbl : List Job) : Except Unit Eff :=
  let j : Int := match argv.head? with
                 | some a => atoi a
                 | none => -1
  Except.map (fun r =>
    { ret := 0,
      msgs := if r.1 then []
              else ["bg: job not found: " ++ argv.head?.getD "(null)" ++ "\n"],
      sigs := r.2.1, tbl := r.2.2 })
    (resumejob orc j true tbl)

/-- Embedding of `do_kill` (part_001:76-91): a missing argument or one whose
first character is not the percent sign makes the function return −1 with no
diagnostic, no signal and no table change; otherwise the digits after the
percent sign select the slot for `killjob`, with `kill: job not found: %s` on
rejection. The return value is 0 on both `killjob` outcomes. -/
def do_kill (argv : List String) (tbl : List Job) : Eff :=
  match argv.head? with
  | none => { ret := -1, msgs := [], sigs := [], tbl := tbl }
  | some a =>
    if a.data.head? = some '%' then
      let r := killjob (atoi (a.drop 1)) tbl
      if r.1 then { ret := 0, msgs := [], sigs := r.2, tbl := tbl }
      else { ret := 0, msgs := ["kill: job not found: " ++ a ++ "\n"], sigs := [], tbl := tbl }
    else { ret := -1, msgs := [], sigs := [], tbl := tbl }

/-- Result of `builtin_command`: `do_quit` never returns (`exit(EXIT_SUCCESS)`);
every other built-in returns an `Eff` to the caller. -/
inductive BuiltinOutcome
  | exitShell
  | ret (e : Eff)
deriving DecidableEq, Repr

/-- The membership test of the `builtins` dispatch table (part_001:93-96). -/
def isBuiltinName (s : String) : Bool :=
  s == "quit" || s == "cd" || s == "jobs" || s == "fg" || s == "bg" || s == "kill"

/-- Embedding of `builtin_command` (part_001:98-107): look `argv[0]` up in the
dispatch table and run the match with `&argv[1]`; an unknown name sets
`errno = ENOENT` and returns −1. (An empty `argv` would dereference a null
`argv[0]` in C — undefined behaviour — and is modelled as the not-found −1.) -/
def builtin_command (orc : Oracles) (argv : List String) (tbl : List Job) :
    Except Unit BuiltinOutcome :=
  match argv.head? with
  | none => Except.ok (BuiltinOutcome.ret { ret := -1, msgs := [], sigs := [], tbl := tbl })
  | some name =>
    if name = "quit" then Except.ok BuiltinOutcome.exitShell
    else if name = "cd" then Except.ok (BuiltinOutcome.ret (do_chdir orc argv.tail tbl))
    else if name = "jobs" then Except.ok (BuiltinOutcome.ret (do_jobs argv.tail tbl))
    else if name = "fg" then Except.map BuiltinOutcome.ret (do_fg orc argv.tail tbl)
    else if name = "bg" then Except.map BuiltinOutcome.ret (do_bg orc argv.tail tbl)
    else if name = "kill" then Except.ok (BuiltinOutcome.ret (do_kill argv.tail tbl))
    else Except.ok (BuiltinOutcome.ret { ret := -1, msgs := [], sigs := [], tbl := tbl })

/-! ## Launcher protocols as action traces (shell.c:65-119 and shell.c:123-160)

The fork-time protocol of `do_job` and `do_stage` is modelled as the ordered
list of system-level actions each side of the fork performs, transcribed
statement by statement from the source. -/

/-- One system-level action performed around a fork. -/
inductive Action
  | sigprocmaskSet
  | signalDfl (s : Sig)
  | dup2 (oldfd newfd : Int)
  | setpgid (pid pgid : Int)
  | builtinTry
  | execExternal
deriving DecidableEq, Repr

/-- Test for a `setpgid` call with any arguments. -/
def isSetpgid : Action → Bool
  | Action.setpgid _ _ => true
  | _ => false

/-- The child branch of `do_job` (shell.c:80-97): clear the signal mask, reset
`SIGTSTP`/`SIGTTIN`/`SIGTTOU` to default, `dup2` the output then the input
descriptor when not −1, and exec the external command. No `setpgid` and no
built-in attempt occur in this child (built-ins were dispatched before the
fork). -/
def doJobChildActions (input output : Int) : List Action :=
  [Action.sigprocmaskSet, Action.signalDfl Sig.SIGTSTP, Action.signalDfl Sig.SIGTTIN,
   Action.signalDfl Sig.SIGTTOU] ++
  (if output ≠ -1 then [Action.dup2 output 1] else []) ++
  (if input ≠ -1 then [Action.dup2 input 0] else []) ++
  [Action.execExternal]

/-- The parent's post-fork calls in `do_job` (shell.c:99): a single
`setpgid(pid, pid)`. -/
def doJobParentActions (pid : Int) : List Action :=
  [Action.setpgid pid pid]

/-- The child branch of `do_stage` (shell.c:136-156): restore the inherited
mask, reset the three terminal signals, `dup2` input then output when not −1,
attempt the built-in and exec the external command. No `setpgid` occurs in
this child. -/
def doStageChildActions (input output : Int) : List Action :=
  [Action.sigprocmaskSet, Action.signalDfl Sig.SIGTSTP, Action.signalDfl Sig.SIGTTIN,
   Action.signalDfl Sig.SIGTTOU] ++
  (if input ≠ -1 then [Action.dup2 input 0] else []) ++
  (if output ≠ -1 then [Action.dup2 output 1] else []) ++
  [Action.builtinTry, Action.execExternal]

/-- The parent's post-fork calls in `do_stage` (shell.c:158): a single
`setpgid(pid, pgid)`. -/
def doStageParentActions (pid pgid : Int) : List Action :=
  [Action.setpgid pid pgid]

/-! ## do_job (shell.c:65-119) -/

/-- How one `do_job` invocation resolved: a built-in ran in the shell process
(`builtinDone` with its status, or `exitShell` for `quit`), or a child was
forked for an external command. -/
inductive JobOutcome
  | exitShell
  | builtinDone (code : Int)
  | forked (pid : Int)
deriving DecidableEq, Repr

/-- Everything observable about one `do_job` invocation: the value it returns,
how it resolved, printed lines, signals sent, the job table afterwards, the
fork-protocol traces (empty when no fork happened), the two redirection
descriptors `do_redir` produced, and the foreground monitor's result when one
ran. -/
structure JobResult where
  retVal : Int
  outcome : JobOutcome
  msgs : List String
  sigs : List (Int × Sig)
  tbl : List Job
  childActions : List Action
  parentActions : List Action
  input : Int
  output : Int
  monitorRet : Option Int
deriving DecidableEq, Repr

/-- The `argv` a token vector denotes once redirections are consumed: its
literal-string entries. (In `do_job`'s context the compacted vector contains
only literal strings.) -/
def stageArgv (toks : List Token) : List String :=
  toks.filterMap (fun t =>
    match t with
    | Token.str s => some s
    | _ => none)

/-- Embedding of `do_job` (shell.c:65-119): resolve redirections (an assert
failure there aborts the shell: `Except.error`), try the built-in dispatch,
and return its status when it is ≥ 0 — a NEGATIVE built-in status (an unknown
name, but also `do_kill`'s −1 usage failure) falls through to the fork path.
The fork path creates the job entry, closes the redirection descriptors, and
either runs the foreground monitor (whose exit code becomes `do_job`'s return
value) or announces the background job. -/
def do_job (orc : Oracles) (tokens : List Token) (bg : Bool) (tbl : List Job) :
    Except Unit JobResult :=
  match do_redir orc.openF tokens with
  | Except.error e => Except.error e
  | Except.ok (toks, _n, input, output) =>
    let argv := stageArgv toks
    match builtin_command orc argv tbl with
    | Except.error e => Except.error e
    | Except.ok BuiltinOutcome.exitShell =>
      Except.ok { retVal := 0, outcome := JobOutcome.exitShell, msgs := [], sigs := [],
                  tbl := tbl, childActions := [], parentActions := [],
                  input := input, output := output, monitorRet := none }
    | Except.ok (BuiltinOutcome.ret eff) =>
      if eff.ret ≥ 0 then
        Except.ok { retVal := eff.ret, outcome := JobOutcome.builtinDone eff.ret,
                    msgs := eff.msgs, sigs := eff.sigs, tbl := eff.tbl,
                    childActions := [], parentActions := [],
                    input := input, output := output, monitorRet := none }
      else
        let pid := orc.forkF
        let r1 := addjob pid bg eff.tbl
        let tbl2 := addproc r1.1 pid argv r1.2
        if bg then
          Except.ok { retVal := 0, outcome := JobOutcome.forked pid,
                      msgs := eff.msgs ++
                        ["[" ++ toString r1.1 ++ "] running \x27" ++
                         ((tbl2.getD r1.1 zeroJob).command.getD "") ++ "\x27\n"],
                      sigs := eff.sigs, tbl := tbl2,
                      childActions := doJobChildActions input output,
                      parentActions := doJobParentActions pid,
                      input := input, output := output, monitorRet := none }
        else
          let m := monitorjob (orc.wake tbl2)
          Except.ok { retVal := m.1, outcome := JobOutcome.forked pid,
                      msgs := eff.msgs, sigs := eff.sigs, tbl := m.2,
                      childActions := doJobChildActions input output,
                      parentActions := doJobParentActions pid,
                      input := input, output := output, monitorRet := some m.1 }

/-! ## The pipeline driver (shell.c:171-239) -/

/-- The stage-splitting loop of `do_pipeline` (shell.c:185-227): each `T_PIPE`
is overwritten with `T_NULL` in place, so the stages are the maximal pipe-free
segments; a trailing pipe produces no empty final stage (the loop condition
`stage_start < ntokens` fails first). -/
def splitStagesGo : List Token → List Token → List (List Token)
  | [], acc => [acc.reverse]
  | Token.tPipe :: rest, acc =>
    match rest with
    | [] => [acc.reverse]
    | _ :: _ => acc.reverse :: splitStagesGo rest []
  | t :: rest, acc => splitStagesGo rest (t :: acc)

/-- Stage decomposition of a token vector; an empty vector has no stages. -/
def splitStages (tokens : List Token) : List (List Token) :=
  match tokens with
  | [] => []
  | _ :: _ => splitStagesGo tokens []

/-- Per-stage work of the pipeline loop: each stage runs `do_redir` inside
`do_stage` (an assert failure aborts the shell) and is forked with the next
pid of the fork oracle `pids`; the pair (pid, post-redirection argv) is what
`addproc` later records. Pipe descriptor plumbing (`mkpipe`, the parent's
closes) has no effect on the job table and is not modelled. -/
def pipelineStages (openF : RMode → String → Int) :
    List (List Token) → List Int → Except Unit (List (Int × List String))
  | [], _ => Except.ok []
  | st :: sts, pids =>
    match do_redir openF st with
    | Except.error e => Except.error e
    | Except.ok (kept, _n, _i, _o) =>
      Except.map (fun rest => (pids.headD 0, stageArgv kept) :: rest)
        (pipelineStages openF sts pids.tail)

/-- Everything observable about one `do_pipeline` invocation. `ret` is the
value the function returns: its local `exitcode`, initialised to 0 at
shell.c:174 and never reassigned. `monitorRet` is the value `monitorjob`
returned in the foreground case — the source DISCARDS it (shell.c:232). -/
structure PipelineResult where
  ret : Int
  monitorRet : Option Int
  msgs : List String
  tbl : List Job
  job : Nat
deriving DecidableEq, Repr

/-- Embedding of `do_pipeline` (shell.c:171-239): split the vector into stages,
fork them all (the first pid becomes the process-group id and `addjob`'s
pgid), record each stage with `addproc`, then either monitor the foreground
job — throwing away `monitorjob`'s exit code — or announce the background job.
The returned `ret` is the never-reassigned local `exitcode = 0`. -/
def do_pipeline (orc : Oracles) (pids : List Int) (tokens : List Token) (bg : Bool)
    (tbl : List Job) : Except Unit PipelineResult :=
  let exitcodeVar : Int := 0
  match pipelineStages orc.openF (splitStages tokens) pids with
  | Except.error e => Except.error e
  | Except.ok recs =>
    let pgid := (recs.headD (0, [])).1
    let r1 := addjob pgid bg tbl
    let tbl2 := recs.foldl (fun t pr => addproc r1.1 pr.1 pr.2 t) r1.2
    if bg then
      Except.ok { ret := exitcodeVar, monitorRet := none,
                  msgs := ["[" ++ toString r1.1 ++ "] running \x27" ++
                           ((tbl2.getD r1.1 zeroJob).command.getD "") ++ "\x27\n"],
                  tbl := tbl2, job := r1.1 }
    else
      let m := monitorjob (orc.wake tbl2)
      Except.ok { ret := exitcodeVar, monitorRet := some m.1, msgs := [],
                  tbl := m.2, job := r1.1 }

/-! ## Concrete scenarios used by the theorems -/

/-- A default oracle assignment: every `open` fails (returns −1), `chdir`
succeeds, `fork` hands back pid 7, and no reaper activity happens during a
monitor wait. -/
def orc0 : Oracles :=
  { openF := fun _ _ => -1, chdirF := fun _ => 0, homeF := none,
    strerrF := "", forkF := 7, wake := id }

/-- The job record of the foreground pipeline `true | false` after both stages
have been reaped: the first stage exited 0, the last stage exited 1. -/
def jobC1fin : Job :=
  { pgid := 10,
    proc := [{ pid := 10, state := PState.FINISHED, exitcode := 0 },
             { pid := 11, state := PState.FINISHED, exitcode := 1 }],
    state := PState.FINISHED, command := some "true | false" }

/-- Oracle assignment for the `true | false` run: the reaper has marked both
stages FINISHED by the time the monitor's wait exits. -/
def orcC1 : Oracles :=
  { openF := fun _ _ => 3, chdirF := fun _ => 0, homeF := none,
    strerrF := "", forkF := 10, wake := fun _ => [jobC1fin] }

/-- A finished foreground job (`echo hi` after its exit was reaped),
occupying slot 0. -/
def jobFgFin : Job :=
  { pgid := 10, proc := [{ pid := 10, state := PState.FINISHED, exitcode := 0 }],
    state := PState.FINISHED, command := some "echo hi" }

/-- A stopped background job (`sleep 100` after a terminal stop). -/
def jobStopped : Job :=
  { pgid := 20, proc := [{ pid := 20, state := PState.STOPPED, exitcode := -1 }],
    state := PState.STOPPED, command := some "sleep 100" }

/-- Table at the moment the foreground monitor observes FINISHED. -/
def tblC2 : List Job := [jobFgFin]

/-- Table after a foreground command finished (stale slot 0) while a stopped
background job sits in slot 1 — the state reached by running `sleep 100`,
stopping it with the terminal, and letting `echo hi` finish in the
foreground. -/
def tblC2b : List Job := [jobFgFin, jobStopped]

/-- A finished background job (`sleep 1` after its exit was reaped). -/
def jobC9fin : Job :=
  { pgid := 5, proc := [{ pid := 5, state := PState.FINISHED, exitcode := 0 }],
    state := PState.FINISHED, command := some "sleep 1" }

/-- Table with one finished background job, as seen by the first `jobs` call. -/
def tblC9 : List Job := [zeroJob, jobC9fin]

/-- A running background job. -/
def jobRun : Job :=
  { pgid := 3, proc := [{ pid := 3, state := PState.RUNNING, exitcode := -1 }],
    state := PState.RUNNING, command := some "sleep 60" }

/-- Table with one running background job. -/
def tblRun : List Job := [zeroJob, jobRun]

/-- The finished job whose slot `deljob` is about to clear in the C10
scenario. -/
def jobC10 : Job :=
  { pgid := 5, proc := [{ pid := 5, state := PState.FINISHED, exitcode := 0 }],
    state := PState.FINISHED, command := some "sleep 1" }

/-- Table whose slot 1 has just been freed by `deljob`. -/
def tblC10 : List Job := [zeroJob, deljob jobC10]

/-! ## Helper lemmas -/

/-- The redirection scan walks over a prefix of plain words untouched: the
result is the suffix's result with the words put back in front. -/
lemma do_redirGo_over_words (openF : RMode → String → Int) (ws : List String)
    (ts : List Token) (inp out : Int) :
    do_redirGo openF (ws.map Token.str ++ ts) inp out =
      Except.map (fun r => (ws.map Token.str ++ r.1, r.2.1, r.2.2))
        (do_redirGo openF ts inp out) := by
  induction ws generalizing inp out with
  | nil =>
    simp only [List.map_nil, List.nil_append]
    cases do_redirGo openF ts inp out <;> rfl
  | cons s ws ih =>
    simp only [List.map_cons, List.cons_append, do_redirGo, List.append_eq]
    rw [ih]
    cases do_redirGo openF ts inp out <;> rfl

/-- An all-words token vector passes through `do_redir` unchanged with both
descriptors still at −1. -/
lemma do_redir_strs (openF : RMode → String → Int) (ws : List String) :
    do_redir openF (ws.map Token.str) =
      Except.ok (ws.map Token.str, ws.length, -1, -1) := by
  unfold do_redir
  have h := do_redirGo_over_words openF ws [] (-1) (-1)
  simp only [List.append_nil] at h
  rw [h]
  simp [do_redirGo, Except.map]

/-- A trailing input redirection after plain words: the file is opened (the
result of `open` is stored unchecked) and the words survive as the argv. -/
lemma do_redir_trailing_input (openF : RMode → String → Int) (ws : List String)
    (f : String) :
    do_redir openF (ws.map Token.str ++ [Token.tInput, Token.str f]) =
      Except.ok (ws.map Token.str, ws.length, openF RMode.rIn f, -1) := by
  unfold do_redir
  rw [do_redirGo_over_words]
  simp [do_redirGo, Except.map]

/-- The literal strings of an all-words token vector are the words
themselves. -/
lemma stageArgv_map_str (ws : List String) : stageArgv (ws.map Token.str) = ws := by
  induction ws with
  | nil => rfl
  | cons s ws ih => simp [stageArgv] at ih ⊢; exact ih

/-- A name outside the dispatch table makes `builtin_command` return the
not-found −1 with no effects. -/
lemma builtin_command_notfound (orc : Oracles) (argv : List String) (tbl : List Job)
    (w : String) (hw : argv.head? = some w) (hb : isBuiltinName w = false) :
    builtin_command orc argv tbl =
      Except.ok (BuiltinOutcome.ret { ret := -1, msgs := [], sigs := [], tbl := tbl }) := by
  simp only [isBuiltinName, Bool.or_eq_false_iff, beq_eq_false_iff_ne, ne_eq] at hb
  obtain ⟨⟨⟨⟨⟨h1, h2⟩, h3⟩, h4⟩, h5⟩, h6⟩ := hb
  simp [builtin_command, hw, h1, h2, h3, h4, h5, h6]

/-- A rejected selection makes `resumejob` report failure without touching the
table or sending a signal. -/
lemma resumejob_notfound (orc : Oracles) (j : Int) (bg : Bool) (tbl : List Job)
    (h : resumejobFound tbl j = false) :
    resumejob orc j bg tbl = Except.ok (false, [], tbl) := by
  unfold resumejob
  unfold resumejobFound at h
  by_cases hc : resumeTarget tbl j ≥ (tbl.length : Int) ∨
      (tbl.getD (resumeTarget tbl j).toNat zeroJob).state = PState.FINISHED
  · rw [if_pos hc]
  · rw [if_neg hc] at h
    exact absurd h (by simp)

/-- The failure path of `do_fg`: message printed, return value 0, no signal,
table unchanged. -/
lemma do_fg_notfound (orc : Oracles) (argv : List String) (tbl : List Job) (a : String)
    (ha : argv.head? = some a) (hf : resumejobFound tbl (atoi a) = false) :
    do_fg orc argv tbl =
      Except.ok { ret := 0, msgs := ["fg: job not found: " ++ a ++ "\n"],
                  sigs := [], tbl := tbl } := by
  simp only [do_fg, ha]
  rw [resumejob_notfound orc (atoi a) false tbl hf]
  rfl

/-- The failure path of `do_bg`: message printed, return value 0, no signal,
table unchanged. -/
lemma do_bg_notfound (orc : Oracles) (argv : List String) (tbl : List Job) (a : String)
    (ha : argv.head? = some a) (hf : resumejobFound tbl (atoi a) = false) :
    do_bg orc argv tbl =
      Except.ok { ret := 0, msgs := ["bg: job not found: " ++ a ++ "\n"],
                  sigs := [], tbl := tbl } := by
  simp only [do_bg, ha]
  rw [resumejob_notfound orc (atoi a) true tbl hf]
  rfl

/-- The rejection path of `do_kill` for a well-formed `%n` argument naming a
rejected slot. -/
lemma do_kill_notfound (tbl : List Job) (k : String) (j : Int)
    (hk : k.data.head? = some '%') (hj : atoi (k.drop 1) = j)
    (hrej : j ≥ (tbl.length : Int) ∨ (tbl.getD j.toNat zeroJob).state = PState.FINISHED) :
    do_kill [k] tbl =
      { ret := 0, msgs := ["kill: job not found: " ++ k ++ "\n"], sigs := [], tbl := tbl } := by
  simp only [do_kill, List.head?_cons, hk, hj]
  unfold killjob
  rw [if_pos hrej]
  simp

/-- The fork path of `do_job` in the foreground: a builtin status < 0 (unknown
command, or `do_kill`'s −1) leads to fork, job creation and the monitor. -/
lemma do_job_fork_fg (orc : Oracles) (tokens : List Token) (tbl : List Job)
    (toks : List Token) (n : Nat) (input output : Int) (eff : Eff)
    (hred : do_redir orc.openF tokens = Except.ok (toks, n, input, output))
    (hbc : builtin_command orc (stageArgv toks) tbl = Except.ok (BuiltinOutcome.ret eff))
    (hneg : eff.ret < 0) :
    ∃ r, do_job orc tokens false tbl = Except.ok r ∧
      r.outcome = JobOutcome.forked orc.forkF ∧ r.msgs = eff.msgs ∧ r.sigs = eff.sigs ∧
      r.input = input ∧ r.output = output ∧
      r.childActions = doJobChildActions input output ∧
      r.parentActions = doJobParentActions orc.forkF := by
  have hneg2 : ¬ eff.ret ≥ 0 := not_le.mpr hneg
  simp only [do_job, hred, hbc, if_neg hneg2]
  exact ⟨_, rfl, rfl, rfl, rfl, rfl, rfl, rfl, rfl⟩

/-- The handler's accumulated flags coincide with "some updated process is
RUNNING" and "some updated process is STOPPED". -/
lemma reapProcs_flags (w : Int → WaitRes) (ps : List Proc) :
    (reapProcs w ps).2.1 = (reapProcs w ps).1.any (fun p => p.state == PState.RUNNING) ∧
    (reapProcs w ps).2.2 = (reapProcs w ps).1.any (fun p => p.state == PState.STOPPED) := by
  induction ps with
  | nil => exact ⟨rfl, rfl⟩
  | cons p ps ih =>
    simp only [reapProcs, List.any_cons]
    by_cases hp : p.state = PState.FINISHED
    · simp [hp, ih.1, ih.2]
    · simp [hp, ih.1, ih.2]

/-- Indexing a slot after one handler invocation. -/
lemma sigchld_handler_getD (w : Int → WaitRes) (tbl : List Job) (j : Nat)
    (hj : j < tbl.length) :
    (sigchld_handler w tbl).getD j zeroJob = sigchldJob w (tbl.getD j zeroJob) := by
  unfold sigchld_handler
  rw [List.getD_eq_getElem?_getD, List.getD_eq_getElem?_getD, List.getElem?_map,
    List.getElem?_eq_getElem hj]
  rfl

/-- When no occupied slot of the scanned suffix is FINISHED, the `watchjobs`
scan leaves every slot unchanged. -/
lemma watchjobsGo_stable (k : Nat) (l : List Job)
    (h : ∀ job ∈ l, job.pgid ≠ 0 → job.state ≠ PState.FINISHED) :
    (watchjobsGo none k l).2 = l := by
  induction l generalizing k with
  | nil => rfl
  | cons job rest ih =>
    simp only [watchjobsGo]
    have hj := h job (List.mem_cons_self _ _)
    have hr : ∀ x ∈ rest, x.pgid ≠ 0 → x.state ≠ PState.FINISHED :=
      fun x hx => h x (List.mem_cons_of_mem _ hx)
    rw [ih (k + 1) hr]
    unfold watchjobsAt
    by_cases hp : job.pgid = 0
    · simp [hp]
    · cases hstate : job.state with
      | RUNNING => simp [hp, hstate]
      | STOPPED => simp [hp, hstate]
      | FINISHED => exact absurd hstate (hj hp)

/-- Neither launcher's child branch ever calls `setpgid`, in `all` form. -/
lemma child_no_setpgid (input output : Int) :
    ((doStageChildActions input output).all (fun a => !(isSetpgid a)) = true) ∧
    ((doJobChildActions input output).all (fun a => !(isSetpgid a)) = true) := by
  constructor <;>
    (by_cases hi : input = (-1 : Int) <;> by_cases ho : output = (-1 : Int) <;>
      simp [doStageChildActions, doJobChildActions, hi, ho, isSetpgid])

/-! ## Claim theorems -/

/-- C1 (code bug): for the foreground pipeline `true | false` the exit code
recorded for the last stage (the job's last process record) is 1 and
`monitorjob` duly returns it — but `do_pipeline` discards that value
(shell.c:232) and returns its local `exitcode`, still 0 from its
initialisation, so the value returned by the pipeline execution path is NOT
the last stage's exit code. -/
theorem c1_pipeline_return_is_zero_not_last_stage :
    ∃ r, do_pipeline orcC1 [10, 11] [Token.str "true", Token.tPipe, Token.str "false"]
        false [zeroJob] = Except.ok r ∧
      exitcode (r.tbl.getD 0 zeroJob) = 1 ∧ r.monitorRet = some 1 ∧
      r.ret = 0 ∧ r.ret ≠ exitcode (r.tbl.getD 0 zeroJob) :=
  ⟨_, rfl, rfl, rfl, rfl, by decide⟩

/-- C2 (code bug): when the foreground monitor observes the foreground job as
FINISHED it does capture and return the last process's exit code, but performs
NO `deljob`: the table is returned unchanged and slot 0 still carries
`pgid = 10`, so the foreground slot is NOT empty at the following steady
state. Consequently a later `fg 1` on the table with a stopped background job
runs into `movejob`'s `assert(jobs[FG].pgid == 0)` and aborts the whole shell
(the `Except.error ()` below). -/
theorem c2_monitor_finished_no_deljob :
    monitorjob tblC2 = (0, tblC2) ∧
    ((monitorjob tblC2).2.getD 0 zeroJob).pgid = 10 ∧
    resumejob orc0 1 false tblC2b = Except.error () :=
  ⟨rfl, rfl, rfl⟩

/-- C3 counterexample: `cat < nosuch` with a failing `open` (the oracle of
`orc0` returns −1 for every open). The claim says the failure is reported as
"filename: strerror" and no child is created; in fact no message at all is
printed and `do_job` forks a child (pid 7), with the failed descriptor −1
silently treated as "inherit". -/
theorem c3_open_failure_counterexample :
    ∃ r, do_job orc0 [Token.str "cat", Token.tInput, Token.str "nosuch"] false [zeroJob]
        = Except.ok r ∧
      r.outcome = JobOutcome.forked 7 ∧ r.msgs = [] ∧ r.input = -1 :=
  ⟨_, rfl, rfl, rfl, rfl⟩

/-- C3 amended: `do_redir` stores `open`'s return value unchecked, so when the
open of an input-redirect target fails (returns −1) in a single non-built-in
command, no diagnostic is printed, the descriptor stays −1 ("inherit"), and
the command proceeds to fork exactly as if no redirection had been given. -/
theorem c3_open_failure_amended (orc : Oracles) (tbl : List Job) (ws : List String)
    (w f : String) (hw : ws.head? = some w) (hb : isBuiltinName w = false)
    (hopen : orc.openF RMode.rIn f = -1) :
    ∃ r, do_job orc (ws.map Token.str ++ [Token.tInput, Token.str f]) false tbl
        = Except.ok r ∧
      r.outcome = JobOutcome.forked orc.forkF ∧ r.msgs = [] ∧
      r.input = -1 ∧ r.output = -1 := by
  have hred := do_redir_trailing_input orc.openF ws f
  rw [hopen] at hred
  have hbc := builtin_command_notfound orc ws tbl w hw hb
  rw [← stageArgv_map_str ws] at hbc
  obtain ⟨r, h1, h2, h3, _h4, h5, h6, _, _⟩ :=
    do_job_fork_fg orc _ tbl (ws.map Token.str) ws.length (-1) (-1) _ hred hbc (by norm_num)
  exact ⟨r, h1, h2, h3, h5, h6⟩

/-- C3 witness: the amended statement at the concrete inputs of the
counterexample scenario. -/
theorem c3_open_failure_witness :
    ∃ r, do_job orc0 (["cat"].map Token.str ++ [Token.tInput, Token.str "nosuch"])
        false [zeroJob] = Except.ok r ∧
      r.outcome = JobOutcome.forked orc0.forkF ∧ r.msgs = [] ∧
      r.input = -1 ∧ r.output = -1 :=
  c3_open_failure_amended orc0 [zeroJob] ["cat"] "cat" "nosuch" rfl rfl rfl

/-- C4 counterexample: a redirection operator with no following token. The
claim says this fails with a printed MalformedRedirection diagnostic, aborts
only that command, and the shell continues to the next prompt; in fact
`do_redir` fails its `assert(i+1 != ntokens && string_p(token[i+1]))`, which
aborts the ENTIRE shell process with no shell-level diagnostic (`Except.error`
in the embedding). -/
theorem c4_malformed_redirection_counterexample :
    do_redir orc0.openF [Token.str "cat", Token.tInput] = Except.error () := rfl

/-- C4 amended: whenever a redirection operator is not followed by a literal
string token (it is the last token, or a separator follows), `do_redir`
aborts the whole shell via assertion failure; no diagnostic is printed and the
shell does not reach the next prompt. -/
theorem c4_malformed_redirection_amended (openF : RMode → String → Int)
    (pre : List String) (op : Token) (rest : List Token)
    (hop : op = Token.tInput ∨ op = Token.tOutput)
    (hrest : headIsString rest = false) :
    do_redir openF (pre.map Token.str ++ op :: rest) = Except.error () := by
  unfold do_redir
  rw [do_redirGo_over_words]
  have hcase : ∀ r2 : List Token, headIsString r2 = false →
      do_redirGo openF (Token.tInput :: r2) (-1) (-1) = Except.error () ∧
      do_redirGo openF (Token.tOutput :: r2) (-1) (-1) = Except.error () := by
    intro r2 h2
    cases r2 with
    | nil => exact ⟨rfl, rfl⟩
    | cons t r => cases t <;> first | exact ⟨rfl, rfl⟩ | simp [headIsString] at h2
  have h : do_redirGo openF (op :: rest) (-1) (-1) = Except.error () := by
    rcases hop with h | h
    · rw [h]; exact (hcase rest hrest).1
    · rw [h]; exact (hcase rest hrest).2
  rw [h]
  rfl

/-- C4 witness: the amended statement at the counterexample's input. -/
theorem c4_malformed_redirection_witness :
    do_redir orc0.openF (["cat"].map Token.str ++ Token.tInput :: []) = Except.error () :=
  c4_malformed_redirection_amended orc0.openF ["cat"] Token.tInput [] (Or.inl rfl) rfl

/-- C5 counterexample: `fg 5` on a table with a single empty slot. The claim
says the built-in returns a nonzero exit code along with the "job not found"
message; in fact the message is printed but `do_fg` returns 0
(part_001:52). -/
theorem c5_job_not_found_counterexample :
    do_fg orc0 ["5"] [zeroJob] =
      Except.ok { ret := 0, msgs := ["fg: job not found: 5\n"], sigs := [], tbl := [zeroJob] } :=
  rfl

/-- C5 amended: whenever `resumejob`'s selection rejects the requested slot
(unknown slot or FINISHED slot, including a failed default selection), both
`fg` and `bg` print the "job not found" message — but return exit code 0, not
a nonzero code. -/
theorem c5_job_not_found_amended (orc : Oracles) (argv : List String) (tbl : List Job)
    (a : String) (ha : argv.head? = some a)
    (hf : resumejobFound tbl (atoi a) = false) :
    do_fg orc argv tbl =
      Except.ok { ret := 0, msgs := ["fg: job not found: " ++ a ++ "\n"],
                  sigs := [], tbl := tbl } ∧
    do_bg orc argv tbl =
      Except.ok { ret := 0, msgs := ["bg: job not found: " ++ a ++ "\n"],
                  sigs := [], tbl := tbl } :=
  ⟨do_fg_notfound orc argv tbl a ha hf, do_bg_notfound orc argv tbl a ha hf⟩

/-- C5 witness: the amended statement for `fg 5` / `bg 5` on the fresh
table. -/
theorem c5_job_not_found_witness :
    do_fg orc0 ["5"] [zeroJob] =
      Except.ok { ret := 0, msgs := ["fg: job not found: " ++ "5" ++ "\n"],
                  sigs := [], tbl := [zeroJob] } ∧
    do_bg orc0 ["5"] [zeroJob] =
      Except.ok { ret := 0, msgs := ["bg: job not found: " ++ "5" ++ "\n"],
                  sigs := [], tbl := [zeroJob] } :=
  c5_job_not_found_amended orc0 ["5"] [zeroJob] "5" rfl rfl

/-- C6 counterexample: `kill 123` (argument missing the percent prefix). The
claim says a diagnostic is printed, the resulting status is −1 and no signal
is sent; in fact `do_kill` returns −1 with NO diagnostic and no signal, and
because `do_job` treats a negative built-in status as "not a built-in"
(shell.c:71), the shell then FORKS a child to run an external `kill`
command instead of failing the command. -/
theorem c6_kill_usage_counterexample :
    (do_kill ["123"] [zeroJob]).msgs = [] ∧ (do_kill ["123"] [zeroJob]).sigs = [] ∧
    (do_kill ["123"] [zeroJob]).ret = -1 ∧
    ∃ r, do_job orc0 [Token.str "kill", Token.str "123"] false [zeroJob] = Except.ok r ∧
      r.outcome = JobOutcome.forked 7 :=
  ⟨rfl, rfl, rfl, _, rfl, rfl⟩

/-- C6 amended: for every `kill` argument not starting with the percent sign,
`do_kill` returns −1 without printing anything, sending any signal or touching
the table — and the foreground `do_job` path then treats the negative status
as an unknown built-in and forks a child for an external `kill`. -/
theorem c6_kill_usage_amended (orc : Oracles) (tbl : List Job) (a : String)
    (ha : a.data.head? ≠ some '%') :
    do_kill [a] tbl = { ret := -1, msgs := [], sigs := [], tbl := tbl } ∧
    ∃ r, do_job orc [Token.str "kill", Token.str a] false tbl = Except.ok r ∧
      r.outcome = JobOutcome.forked orc.forkF ∧ r.msgs = [] ∧ r.sigs = [] := by
  have hdk : do_kill [a] tbl = { ret := -1, msgs := [], sigs := [], tbl := tbl } := by
    simp only [do_kill, List.head?_cons]
    rw [if_neg ha]
  refine ⟨hdk, ?_⟩
  have hred : do_redir orc.openF [Token.str "kill", Token.str a] =
      Except.ok ([Token.str "kill", Token.str a], 2, -1, -1) := rfl
  have hbc : builtin_command orc (stageArgv [Token.str "kill", Token.str a]) tbl =
      Except.ok (BuiltinOutcome.ret { ret := -1, msgs := [], sigs := [], tbl := tbl }) := by
    show builtin_command orc ["kill", a] tbl = _
    simp only [builtin_command, List.head?_cons]
    rw [if_neg (by decide), if_neg (by decide), if_neg (by decide), if_neg (by decide),
        if_neg (by decide), if_pos trivial]
    simp only [List.tail_cons]
    rw [hdk]
  obtain ⟨r, h1, h2, h3, h4, _, _, _, _⟩ :=
    do_job_fork_fg orc _ tbl _ 2 (-1) (-1) _ hred hbc (by norm_num)
  exact ⟨r, h1, h2, h3, h4⟩

/-- C6 witness: the amended statement at the counterexample's input. -/
theorem c6_kill_usage_witness :
    do_kill ["123"] [zeroJob] = { ret := -1, msgs := [], sigs := [], tbl := [zeroJob] } ∧
    ∃ r, do_job orc0 [Token.str "kill", Token.str "123"] false [zeroJob] = Except.ok r ∧
      r.outcome = JobOutcome.forked orc0.forkF ∧ r.msgs = [] ∧ r.sigs = [] :=
  c6_kill_usage_amended orc0 [zeroJob] "123" (by decide)

/-- C7 counterexample: the child branch of `do_stage` performs no `setpgid`
call at all (here with inherited descriptors), refuting the claim that both
parent and child perform `setpgid(childpid, pgid_or_childpid)`. -/
theorem c7_setpgid_counterexample :
    ¬ ∃ a ∈ doStageChildActions (-1) (-1), isSetpgid a = true := by decide

/-- C7 amended: for every launched child the PARENT performs
`setpgid(childpid, pgid_or_childpid)` (with `pgid = childpid` in the
single-command path), but the CHILD branch of both launchers contains no
`setpgid` call whatsoever, so the race the claim describes is closed only
from the parent's side. -/
theorem c7_setpgid_amended (pid pgid input output : Int) :
    Action.setpgid pid pgid ∈ doStageParentActions pid pgid ∧
    Action.setpgid pid pid ∈ doJobParentActions pid ∧
    (∀ a ∈ doStageChildActions input output, isSetpgid a = false) ∧
    (∀ a ∈ doJobChildActions input output, isSetpgid a = false) := by
  refine ⟨List.mem_singleton_self _, List.mem_singleton_self _, ?_, ?_⟩
  · intro a ha
    have h := (child_no_setpgid input output).1
    rw [List.all_eq_true] at h
    simpa using h a ha
  · intro a ha
    have h := (child_no_setpgid input output).2
    rw [List.all_eq_true] at h
    simpa using h a ha

/-- C7 witness: the amended statement at concrete pids and descriptors. -/
theorem c7_setpgid_witness :
    Action.setpgid 1 2 ∈ doStageParentActions 1 2 ∧
    Action.setpgid 1 1 ∈ doJobParentActions 1 ∧
    (∀ a ∈ doStageChildActions (-1) 4, isSetpgid a = false) ∧
    (∀ a ∈ doJobChildActions (-1) 4, isSetpgid a = false) :=
  c7_setpgid_amended 1 2 (-1) 4

/-- C8 (confirmed): after one invocation of the SIGCHLD reaper, every occupied
slot (`pgid ≠ 0`, at least one process record) carries the aggregate state
derived from its member states by the spec's rule: RUNNING if any member is
RUNNING, else STOPPED if any member is STOPPED, else FINISHED. -/
theorem c8_reaper_derives_state (w : Int → WaitRes) (tbl : List Job) (j : Nat)
    (hj : j < tbl.length)
    (hpg : ((sigchld_handler w tbl).getD j zeroJob).pgid ≠ 0)
    (_hnp : 1 ≤ ((sigchld_handler w tbl).getD j zeroJob).proc.length) :
    ((sigchld_handler w tbl).getD j zeroJob).state =
      deriveSpec ((sigchld_handler w tbl).getD j zeroJob).proc := by
  rw [sigchld_handler_getD w tbl j hj] at hpg ⊢
  unfold sigchldJob at hpg ⊢
  by_cases hp : (tbl.getD j zeroJob).pgid = 0
  · rw [if_pos hp] at hpg
    exact absurd hp hpg
  · rw [if_neg hp]
    show (if (reapProcs w (tbl.getD j zeroJob).proc).2.1 then PState.RUNNING
          else if (reapProcs w (tbl.getD j zeroJob).proc).2.2 then PState.STOPPED
          else PState.FINISHED) =
      deriveSpec (reapProcs w (tbl.getD j zeroJob).proc).1
    unfold deriveSpec
    rw [(reapProcs_flags w (tbl.getD j zeroJob).proc).1,
        (reapProcs_flags w (tbl.getD j zeroJob).proc).2]

/-- C8 witness: one reaper invocation on a table with a running background job
being stopped. -/
theorem c8_reaper_derives_state_witness :
    ((sigchld_handler (fun _ => WaitRes.stopped) tblRun).getD 1 zeroJob).state =
      deriveSpec ((sigchld_handler (fun _ => WaitRes.stopped) tblRun).getD 1 zeroJob).proc :=
  c8_reaper_derives_state (fun _ => WaitRes.stopped) tblRun 1 (by decide) (by decide)
    (by decide)

/-- C9 counterexample: with a FINISHED background job in the table, the first
`jobs` call reports it AND deletes it (`watchjobs` calls `deljob` after
printing), so the second consecutive `jobs` call — with no signal delivery in
between — prints nothing: the outputs differ. -/
theorem c9_jobs_idempotence_counterexample :
    (do_jobs [] ((do_jobs [] tblC9).tbl)).msgs ≠ (do_jobs [] tblC9).msgs := by decide

/-- C9 amended: two consecutive `jobs` invocations with no intervening signal
deliveries produce identical output PROVIDED no occupied background slot is
FINISHED at the first call; in general the first call deletes every FINISHED
job it reports, so those lines are missing from the second call's output. -/
theorem c9_jobs_idempotence_amended (tbl : List Job)
    (h : ∀ job ∈ tbl.tail, job.pgid ≠ 0 → job.state ≠ PState.FINISHED) :
    (do_jobs [] tbl).tbl = tbl ∧
    (do_jobs [] ((do_jobs [] tbl).tbl)).msgs = (do_jobs [] tbl).msgs := by
  have htbl : (do_jobs [] tbl).tbl = tbl := by
    show (watchjobs none tbl).2 = tbl
    cases tbl with
    | nil => rfl
    | cons fg rest =>
      show fg :: (watchjobsGo none 1 rest).2 = fg :: rest
      rw [watchjobsGo_stable 1 rest h]
  exact ⟨htbl, by rw [htbl]⟩

/-- C9 witness: two `jobs` calls on a table with one running background
job. -/
theorem c9_jobs_idempotence_witness :
    (do_jobs [] tblRun).tbl = tblRun ∧
    (do_jobs [] ((do_jobs [] tblRun).tbl)).msgs = (do_jobs [] tblRun).msgs :=
  c9_jobs_idempotence_amended tblRun (by decide)

/-- C10 (confirmed): a slot freed by `deljob` keeps `state = FINISHED` while
`pgid`, the process array and the command text are cleared; because both
`resumejob` and `killjob` reject FINISHED slots, every later `fg`, `bg` or
`kill` naming that job number prints "job not found" instead of acting on the
stale slot. -/
theorem c10_deljob_stale_slot (orc : Oracles) (job : Job) (tbl : List Job) (j : Nat)
    (a k : String)
    (hstate : job.state = PState.FINISHED)
    (_hj : j < tbl.length)
    (hslot : tbl.getD j zeroJob = deljob job)
    (hja : atoi a = (j : Int))
    (hk : k.data.head? = some '%') (hka : atoi (k.drop 1) = (j : Int)) :
    (deljob job).pgid = 0 ∧ (deljob job).proc = [] ∧ (deljob job).command = none ∧
    (deljob job).state = PState.FINISHED ∧
    do_fg orc [a] tbl =
      Except.ok { ret := 0, msgs := ["fg: job not found: " ++ a ++ "\n"],
                  sigs := [], tbl := tbl } ∧
    do_bg orc [a] tbl =
      Except.ok { ret := 0, msgs := ["bg: job not found: " ++ a ++ "\n"],
                  sigs := [], tbl := tbl } ∧
    do_kill [k] tbl =
      { ret := 0, msgs := ["kill: job not found: " ++ k ++ "\n"], sigs := [], tbl := tbl } := by
  have hfin : (tbl.getD ((j : Int)).toNat zeroJob).state = PState.FINISHED := by
    rw [Int.toNat_natCast, hslot]
    exact hstate
  have hres : resumejobFound tbl (atoi a) = false := by
    simp only [resumejobFound]
    have hjt : resumeTarget tbl (atoi a) = (j : Int) := by
      unfold resumeTarget
      rw [hja, if_neg (not_lt.mpr (Int.natCast_nonneg j))]
    rw [hjt, if_pos (Or.inr hfin)]
  refine ⟨rfl, rfl, rfl, hstate, ?_, ?_, ?_⟩
  · exact do_fg_notfound orc [a] tbl a rfl hres
  · exact do_bg_notfound orc [a] tbl a rfl hres
  · exact do_kill_notfound tbl k (j : Int) hk hka (Or.inr hfin)

/-- C10 witness: slot 1 just freed by `deljob`; `fg 1`, `bg 1` and `kill %1`
all report "job not found". -/
theorem c10_deljob_stale_slot_witness :
    (deljob jobC10).pgid = 0 ∧ (deljob jobC10).proc = [] ∧
    (deljob jobC10).command = none ∧ (deljob jobC10).state = PState.FINISHED ∧
    do_fg orc0 ["1"] tblC10 =
      Except.ok { ret := 0, msgs := ["fg: job not found: " ++ "1" ++ "\n"],
                  sigs := [], tbl := tblC10 } ∧
    do_bg orc0 ["1"] tblC10 =
      Except.ok { ret := 0, msgs := ["bg: job not found: " ++ "1" ++ "\n"],
                  sigs := [], tbl := tblC10 } ∧
    do_kill ["%1"] tblC10 =
      { ret := 0, msgs := ["kill: job not found: " ++ "%1" ++ "\n"],
        sigs := [], tbl := tblC10 } :=
  c10_deljob_stale_slot orc0 jobC10 tblC10 1 "1" "%1" rfl (by decide) rfl (by decide)
    (by decide) (by decide)

end Shell
